import Mathlib

/-!
Shallow embedding of the call dispatch, response classification, retry and
report-polling core of the yandex_direct v5 client
(src/yandex_direct/client.py, exceptions.py, config.py, transport.py).

Modelling conventions:
* JSON values are modelled by the inductive `Json`; JSON numbers are
  modelled as integers (the API error codes and HTTP statuses in play are
  integers).  A Python object decoded from JSON is represented by `Json`,
  with Python `None` represented by `Json.null`.
* Python dicts are association lists with first-key-wins lookup
  (json-decoded dicts have unique keys).
* Delays (floats in Python) are modelled as rationals; the delay formula
  min(base_delay * exponential_base ** attempt, max_delay) is translated
  verbatim.
* Exceptions are modelled with `Except`; `PyExc.other` stands for any
  Python exception that is neither DirectApiError nor DirectTransportError
  (those are not caught by the retry wrapper).
* Stateful wrapped operations are modelled as state-passing functions
  `op : Sigma -> Except PyExc A x Sigma`; the retry wrapper returns the
  outcome together with the list of slept delays and the final state, so
  that invocation counts and sleeps are observable.
-/

/-- JSON values; numbers restricted to integers, `null` also stands for the
Python value None after decoding. -/
inductive Json where
  | null : Json
  | bool : Bool → Json
  | num : Int → Json
  | str : String → Json
  | arr : List Json → Json
  | obj : List (String × Json) → Json
deriving Repr

/-- First-match lookup in an association list, modelling Python dict access
on json-decoded dicts (unique keys). -/
def alget (kvs : List (String × Json)) (k : String) : Option Json :=
  match kvs with
  | [] => none
  | (k0, v0) :: rest => if k0 = k then some v0 else alget rest k

/-- Lookup in a string-valued header map, modelling `headers.get(k)`. -/
def hget (headers : List (String × String)) (k : String) : Option String :=
  match headers with
  | [] => none
  | (k0, v0) :: rest => if k0 = k then some v0 else hget rest k

/-- Python truthiness of a json-decoded value (`if exc.error_code:` etc.). -/
def Json.truthy : Json → Bool
  | .null => false
  | .bool b => b
  | .num n => n != 0
  | .str s => s != ""
  | .arr xs => !xs.isEmpty
  | .obj kvs => !kvs.isEmpty

/-- Python membership test `v in codes` for a json-decoded value and a set of
ints (Python bools compare equal to 0/1; other types are never equal to an
int). -/
def Json.memInt (v : Json) (codes : List Int) : Bool :=
  match v with
  | .num n => codes.contains n
  | .bool b => codes.contains (if b then 1 else 0)
  | _ => false

/-- Mirror of exceptions.DirectApiError: message object, optional numeric
error code (Json.null when absent), details dict (the constructor applies
`details or \x7b\x7d`, so it is always a dict), optional request id and
optional HTTP status code. -/
structure ApiFailure where
  message : Json
  error_code : Json := .null
  details : List (String × Json) := []
  request_id : Option String := none
  status_code : Option Nat := none
deriving Repr

/-- Python exceptions observable by the retry wrapper: DirectApiError,
DirectTransportError, and anything else (uncaught by the wrapper). -/
inductive PyExc where
  | api : ApiFailure → PyExc
  | transport : String → PyExc
  | other : String → PyExc
deriving Repr

/-- Mirror of client.RETRYABLE_ERROR_CODES. -/
def RETRYABLE_ERROR_CODES : List Int :=
  [50, 51, 52, 53, 54, 55, 56, 57, 58, 59, 60, 61, 62, 63, 64, 65, 66, 67, 68, 69, 70]

/-- Mirror of client.RETRYABLE_HTTP_CODES. -/
def RETRYABLE_HTTP_CODES : List Int := [429, 500, 502, 503, 504]

/-- Parameters of the with_retry decorator (client.with_retry), with the same
defaults. -/
structure RetryConfig where
  max_attempts : Nat := 3
  base_delay : ℚ := 1
  max_delay : ℚ := 30
  exponential_base : ℚ := 2
  retry_on_error_codes : Option (List Int) := none
  retry_on_http_codes : Option (List Int) := none

/-- Mirror of `error_codes = retry_on_error_codes or RETRYABLE_ERROR_CODES`
(Python `or`: None and the empty set are falsy). -/
def effective_error_codes (cfg : RetryConfig) : List Int :=
  match cfg.retry_on_error_codes with
  | none => RETRYABLE_ERROR_CODES
  | some l => if l.isEmpty then RETRYABLE_ERROR_CODES else l

/-- Mirror of `http_codes = retry_on_http_codes or RETRYABLE_HTTP_CODES`. -/
def effective_http_codes (cfg : RetryConfig) : List Int :=
  match cfg.retry_on_http_codes with
  | none => RETRYABLE_HTTP_CODES
  | some l => if l.isEmpty then RETRYABLE_HTTP_CODES else l

/-- Backoff delay slept at 0-indexed attempt `attempt`:
`min(base_delay * (exponential_base ** attempt), max_delay)`. -/
def retry_delay (cfg : RetryConfig) (attempt : Nat) : ℚ :=
  min (cfg.base_delay * cfg.exponential_base ^ attempt) cfg.max_delay

/-- Mirror of `exc.error_code and exc.error_code in error_codes`
(truthiness short-circuit, then int-set membership). -/
def api_retryable (cfg : RetryConfig) (e : ApiFailure) : Bool :=
  e.error_code.truthy && e.error_code.memInt (effective_error_codes cfg)

/-- Result of running a retry-wrapped stateful operation: the final outcome,
the delays slept (in order) and the final state of the operation. -/
structure RunResult (σ : Type) (α : Type) where
  outcome : Except PyExc α
  sleeps : List ℚ
  finalState : σ
deriving Repr

/-- One-to-one translation of the `for attempt in range(max_attempts)` loop
body of client.with_retry.wrapper: `fuel` is the number of remaining loop
iterations (`max_attempts - attempt` at every call from `with_retry`),
`attempt` the 0-indexed loop variable, `last` the `last_exception` variable.
When the loop exhausts without returning or raising, Python executes
`raise last_exception`, which raises TypeError when that variable is still
None (only possible when max_attempts = 0). -/
def retryAux (cfg : RetryConfig) (op : σ → Except PyExc α × σ) :
    Nat → Nat → Option PyExc → σ → List ℚ → RunResult σ α
  | 0, _, last, st, sleeps =>
    ⟨.error (match last with
             | some e => e
             | none => .other "TypeError: exceptions must derive from BaseException"),
     sleeps, st⟩
  | fuel + 1, attempt, _, st, sleeps =>
    match op st with
    | (.ok v, st') => ⟨.ok v, sleeps, st'⟩
    | (.error (.api e), st') =>
      if api_retryable cfg e then
        if attempt + 1 < cfg.max_attempts then
          retryAux cfg op fuel (attempt + 1) (some (.api e)) st'
            (sleeps ++ [retry_delay cfg attempt])
        else ⟨.error (.api e), sleeps, st'⟩
      else ⟨.error (.api e), sleeps, st'⟩
    | (.error (.transport m), st') =>
      if attempt + 1 < cfg.max_attempts then
        retryAux cfg op fuel (attempt + 1) (some (.transport m)) st'
          (sleeps ++ [retry_delay cfg attempt])
      else ⟨.error (.transport m), sleeps, st'⟩
    | (.error (.other m), st') => ⟨.error (.other m), sleeps, st'⟩

/-- Mirror of client.with_retry applied to a stateful operation. -/
def with_retry (cfg : RetryConfig) (op : σ → Except PyExc α × σ) (st : σ) :
    RunResult σ α :=
  retryAux cfg op cfg.max_attempts 0 none st []

/-- Mirror of transport.HttpResponse (status code, body text, header map). -/
structure HttpResponse where
  status_code : Nat
  text : String
  headers : List (String × String)
deriving Repr

/-- Mirror of config.DirectConfig. -/
structure DirectConfig where
  access_token : String
  client_login : String
  locale : String := "ru"
  api_url : String := "https://api.direct.yandex.com/json/v5"
  reports_url : String := "https://api.direct.yandex.com/json/v5/reports"
deriving Repr

/-- Mirror of config.DirectConfig.headers. -/
def DirectConfig.headers (c : DirectConfig) : List (String × String) :=
  let token := c.access_token
  [("Authorization", s!"Bearer {token}"),
   ("Client-Login", c.client_login),
   ("Accept-Language", c.locale),
   ("Content-Type", "application/json; charset=utf-8")]

/-- Mirror of client.V5_SERVICES (the fixed service registry). -/
def V5_SERVICES : List String :=
  ["adextensions", "adgroups", "adimages", "ads", "agencyclients",
   "audiencetargets", "bidmodifiers", "bids", "businesses", "campaigns",
   "changes", "clients", "dictionaries", "dynamictextadtargets", "feeds",
   "keywordbids", "keywords", "keywordsresearch", "leads",
   "negativekeywordsharedsets", "retargetinglists", "sitelinks",
   "smartadtargets", "strategies", "turbopages", "vcards"]

/-- Mirror of the dataclass fields of client.YandexDirectClient (the derived
transport field is replaced by passing the transport behaviour explicitly to
the operations that use it). -/
structure YandexDirectClient where
  config : DirectConfig
  timeout_s : Nat := 60
  verify_ssl : Bool := true
  report_poll_interval_s : Nat := 5
  retry_enabled : Bool := true
  retry_max_attempts : Nat := 3
  retry_base_delay : ℚ := 1
  retry_max_delay : ℚ := 30
  log_requests : Bool := true
  log_responses : Bool := true
  retry_on_error_codes : Option (List Int) := none
  retry_on_http_codes : Option (List Int) := none

/-- Mirror of client.ServiceProxy (dataclass with a client and a service
name). -/
structure ServiceProxy where
  client : YandexDirectClient
  service : String

/-- The decorator arguments used at both call sites in the source,
`@with_retry(max_attempts=3, base_delay=1.0)`, together with the remaining
defaults of with_retry. -/
def fixed_retry_config : RetryConfig :=
  { max_attempts := 3, base_delay := 1 }

/-- Mirror of YandexDirectClient._parse_api_response.  The JSON decoder is a
parameter `loads` (modelling json.loads restricted to object-valued bodies,
which is the shape of every API response envelope); `none` models a raised
JSONDecodeError.  An `error` value that is not a dict would make
`error.get(...)` raise AttributeError in Python; that is modelled by
`PyExc.other`. -/
def parse_api_response (loads : String → Option (List (String × Json)))
    (status_code : Nat) (text : String) (headers : List (String × String)) :
    Except PyExc Json :=
  let request_id := hget headers "RequestId"
  if 400 ≤ status_code then
    .error (.api { message := .str s!"HTTP error {status_code}",
                   status_code := some status_code,
                   request_id := request_id,
                   details := [("body", .str text)] })
  else
    match (if text = "" then some [] else loads text) with
    | none => .error (.other "JSONDecodeError")
    | some data =>
      match alget data "error" with
      | some (.obj err) =>
        .error (.api { message := (alget err "error_string").getD
                                    (.str "Yandex Direct API error"),
                       error_code := (alget err "error_code").getD .null,
                       status_code := some status_code,
                       request_id := request_id,
                       details := err })
      | some _ => .error (.other "AttributeError")
      | none => .ok ((alget data "result").getD (.obj data))

/-- An HTTP POST request as handed to transport.post_json. -/
structure HttpRequest where
  url : String
  payload : Json
  headers : List (String × String)

/-- A transport behaviour: a stateful function from a request to either a
DirectTransportError message or an HttpResponse (transport.HttpTransport
either returns a well-formed response or raises DirectTransportError). -/
def Transport (σ : Type) : Type :=
  HttpRequest → σ → Except String HttpResponse × σ

/-- Mirror of YandexDirectClient.call: builds the request body
`\x7b"method": method, "params": params or \x7b\x7d\x7d`, the URL
`api_url/service.lower()`, posts it, parses the response, and is wrapped by
`@with_retry(max_attempts=3, base_delay=1.0)`.  The re-raise of
DirectTransportError after logging is the identity on the exception. -/
def YandexDirectClient.call (c : YandexDirectClient)
    (loads : String → Option (List (String × Json))) (transport : Transport σ)
    (service method : String) (params : Option (List (String × Json)))
    (st : σ) : RunResult σ Json :=
  with_retry fixed_retry_config
    (fun s =>
      let body := Json.obj [("method", .str method),
                            ("params", .obj (params.getD []))]
      let base := c.config.api_url
      let service_name := service.toLower
      let url := s!"{base}/{service_name}"
      match transport ⟨url, body, c.config.headers⟩ s with
      | (.error m, s') => (.error (.transport m), s')
      | (.ok resp, s') =>
        (parse_api_response loads resp.status_code resp.text resp.headers, s'))
    st

/-- Mirror of ServiceProxy.call: delegates to client.call and is itself
wrapped by `@with_retry(max_attempts=3, base_delay=1.0)`. -/
def ServiceProxy.call (p : ServiceProxy)
    (loads : String → Option (List (String × Json))) (transport : Transport σ)
    (method : String) (params : Option (List (String × Json))) (st : σ) :
    RunResult σ Json :=
  with_retry fixed_retry_config
    (fun s =>
      let r := p.client.call loads transport p.service method params s
      (r.outcome, r.finalState))
    st

/-- Python str.lower, character by character (ASCII case mapping; every
registry entry is plain ASCII). -/
def str_lower (s : String) : String :=
  ⟨s.data.map Char.toLower⟩

/-- Mirror of YandexDirectClient.__getattr__: lower-case the name, return a
ServiceProxy bound to the lowercase name when it is in the registry,
otherwise raise AttributeError carrying the original name.  A pure function:
no transport is involved. -/
def YandexDirectClient.getattrService (c : YandexDirectClient)
    (service_name : String) : Except String ServiceProxy :=
  let normalized := str_lower service_name
  if normalized ∈ V5_SERVICES then .ok ⟨c, normalized⟩
  else .error service_name

/-- A header value stored into a Python dict: None when the header is
absent. -/
def jsonOfOptStr : Option String → Json
  | none => .null
  | some s => .str s

/-- Mirror of YandexDirectClient.get_report, as a function of the outcome of
the single transport.post_json call it performs (an Except String models a
raised DirectTransportError). -/
def get_report (r : Except String HttpResponse) : Except PyExc String :=
  match r with
  | .error m => .error (.transport m)
  | .ok response =>
    if response.status_code = 201 then
      .error (.api { message := .str "Report is being generated",
                     status_code := some 201,
                     request_id := hget response.headers "RequestId",
                     details := [("retry_in",
                                  jsonOfOptStr (hget response.headers "retryIn"))] })
    else if 400 ≤ response.status_code then
      let status := response.status_code
      .error (.api { message := .str s!"Report request failed with status {status}",
                     status_code := some status,
                     request_id := hget response.headers "RequestId",
                     details := [("body", .str response.text)] })
    else .ok response.text

/-- Result of the report polling loop: outcome, number of get_report calls
performed, and the delays slept (in order). -/
structure PollResult where
  outcome : Except PyExc String
  calls : Nat
  sleeps : List ℚ
deriving Repr

/-- One-to-one translation of the `for attempt in range(attempts)` loop of
YandexDirectClient.get_report_ready: `remaining` is the number of loop
iterations left, `attempt` the 0-indexed loop variable, `last` the
`last_error` variable.  The i-th get_report call observes the i-th transport
outcome `responses i`.  Only DirectApiError is caught; a 201 failure is
recorded and followed by a fixed sleep, any other failure is re-raised.
After the loop a fresh DirectApiError is raised with the last seen details
and request id. -/
def get_report_ready_aux (interval : ℚ)
    (responses : Nat → Except String HttpResponse) (attempts : Nat) :
    Nat → Nat → Option ApiFailure → Nat → List ℚ → PollResult
  | 0, _, last, calls, sleeps =>
    ⟨.error (.api { message := .str s!"Report was not ready after {attempts} attempts",
                    status_code := some 201,
                    details := match last with
                               | some e => e.details
                               | none => [],
                    request_id := match last with
                                  | some e => e.request_id
                                  | none => none }),
     calls, sleeps⟩
  | remaining + 1, attempt, _last, calls, sleeps =>
    match get_report (responses attempt) with
    | .ok s => ⟨.ok s, calls + 1, sleeps⟩
    | .error (.api e) =>
      if e.status_code ≠ some 201 then ⟨.error (.api e), calls + 1, sleeps⟩
      else get_report_ready_aux interval responses attempts remaining
             (attempt + 1) (some e) (calls + 1) (sleeps ++ [interval])
    | .error ex => ⟨.error ex, calls + 1, sleeps⟩

/-- Mirror of YandexDirectClient.get_report_ready (default attempts = 12);
the sleep between polls is the client's report_poll_interval_s. -/
def YandexDirectClient.get_report_ready (c : YandexDirectClient)
    (responses : Nat → Except String HttpResponse) (attempts : Nat := 12) :
    PollResult :=
  get_report_ready_aux (c.report_poll_interval_s : ℚ) responses attempts
    attempts 0 none 0 []

/-- A transport that raises DirectTransportError on every invocation and
counts its invocations in the state. -/
def counting_transport (msgs : Nat → String) : Transport Nat :=
  fun _req n => (.error (msgs n), n + 1)

/-- Witness fixture: a concrete client. -/
def w_client : YandexDirectClient :=
  { config := { access_token := "t", client_login := "l" } }

/-- Witness fixture: an ApiFailure with a retryable HTTP status (503) but no
numeric error code, as produced by the classifier for a bare HTTP 503. -/
def w_failure_503 : ApiFailure :=
  { message := .str "HTTP error 503", status_code := some 503,
    request_id := some "r1", details := [("body", .str "busy")] }

/-- Witness fixture: an operation raising the bare-503 ApiFailure on every
invocation, counting invocations. -/
def w_api_503_op : Nat → Except PyExc Json × Nat :=
  fun n => (.error (.api w_failure_503), n + 1)

/-- Witness fixture: an operation raising DirectTransportError "boom" on
every invocation, counting invocations. -/
def w_boom_op : Nat → Except PyExc Json × Nat :=
  fun n => (.error (.transport "boom"), n + 1)

/-- Witness fixture: a 201 "report is being generated" transport response. -/
def w_resp201 : HttpResponse :=
  ⟨201, "", [("RequestId", "r1"), ("retryIn", "1")]⟩

/-- Witness fixture: the reports endpoint always answers 201. -/
def w_responses_201 : Nat → Except String HttpResponse :=
  fun _ => .ok w_resp201

/-- Witness fixture: the reports endpoint answers 201 once, then 500. -/
def w_responses_mixed : Nat → Except String HttpResponse :=
  fun i => if i = 0 then .ok w_resp201 else .ok ⟨500, "oops", []⟩

/-- Witness fixture: a decoder for a body carrying an error envelope. -/
def w_loads_error : String → Option (List (String × Json)) :=
  fun _ => some [("error", .obj [("error_code", .num 10),
                                 ("error_string", .str "bad request")])]

/-- Witness fixture: a decoder for a body carrying a result envelope. -/
def w_loads_result : String → Option (List (String × Json)) :=
  fun _ => some [("result", .obj [("ok", .bool true)])]

/-- Witness fixture: a decoder that always fails. -/
def w_loads_none : String → Option (List (String × Json)) :=
  fun _ => none

/-- Witness fixture: a client agreeing with w_client on every non-retry
field but differing in every retry configuration field. -/
def w_client_retry_alt : YandexDirectClient :=
  { config := { access_token := "t", client_login := "l" },
    retry_enabled := false, retry_max_attempts := 7, retry_base_delay := 9,
    retry_max_delay := 11, retry_on_error_codes := some [1, 2],
    retry_on_http_codes := some [418] }

/-- Retry loop on an operation that raises DirectTransportError at every
invocation: each iteration but the last sleeps the backoff delay of its
attempt index and re-invokes; the last iteration re-raises the failure of
the final invocation.  The state is the operation's own, advanced once per
invocation. -/
theorem retry_aux_all_transport (cfg : RetryConfig)
    (op : σ → Except PyExc α × σ) (opMsg : σ → String) (opNext : σ → σ)
    (hop : ∀ s, op s = (.error (.transport (opMsg s)), opNext s)) :
    ∀ (k attempt : Nat) (last : Option PyExc) (st : σ) (acc : List ℚ),
      attempt + (k + 1) = cfg.max_attempts →
      retryAux cfg op (k + 1) attempt last st acc =
        ⟨.error (.transport (opMsg (opNext^[k] st))),
         acc ++ (List.range' attempt k).map (retry_delay cfg),
         opNext^[k + 1] st⟩ := by
  intro k
  induction k with
  | zero =>
    intro attempt last st acc h
    simp only [retryAux]
    rw [hop st]
    have hnlt : ¬ (attempt + 1 < cfg.max_attempts) := by omega
    simp [hnlt]
  | succ k ih =>
    intro attempt last st acc h
    have hlt : attempt + 1 < cfg.max_attempts := by omega
    rw [retryAux]
    simp only [hop st]
    simp only [if_pos hlt]
    rw [ih (attempt + 1) (some (.transport (opMsg st))) (opNext st)
          (acc ++ [retry_delay cfg attempt]) (by omega)]
    simp [Function.iterate_succ_apply, List.range'_succ]

/-- Retry wrapper on an operation that raises DirectTransportError at every
invocation: max_attempts invocations, the failure of the last one
re-raised, and the backoff schedule slept between (not after) attempts. -/
theorem with_retry_all_transport (cfg : RetryConfig)
    (op : σ → Except PyExc α × σ) (opMsg : σ → String) (opNext : σ → σ)
    (hop : ∀ s, op s = (.error (.transport (opMsg s)), opNext s))
    (hmax : 1 ≤ cfg.max_attempts) (st : σ) :
    with_retry cfg op st =
      ⟨.error (.transport (opMsg (opNext^[cfg.max_attempts - 1] st))),
       (List.range (cfg.max_attempts - 1)).map (retry_delay cfg),
       opNext^[cfg.max_attempts] st⟩ := by
  obtain ⟨k, hk⟩ : ∃ k, cfg.max_attempts = k + 1 :=
    ⟨cfg.max_attempts - 1, by omega⟩
  unfold with_retry
  rw [hk]
  rw [retry_aux_all_transport cfg op opMsg opNext hop k 0 none st [] (by omega)]
  simp [List.range_eq_range']

/-- C1: on ApiFailure the retry policy retries only when the error code is
present (non-None) and a member of the retryable-error-code set; with the
code absent or outside the set the failure is re-raised on the first
attempt, with no sleep and no second invocation, regardless of its
status_code; and the default retryable-error-code set is exactly the
inclusive integer range 50..70. -/
theorem c1_api_failure_retried_only_on_error_code (cfg : RetryConfig)
    (op : σ → Except PyExc α × σ) (st st' : σ) (e : ApiFailure)
    (hmax : 1 ≤ cfg.max_attempts)
    (hop : op st = (.error (.api e), st'))
    (hcode : e.error_code = .null ∨
             e.error_code.memInt (effective_error_codes cfg) = false) :
    with_retry cfg op st = ⟨.error (.api e), [], st'⟩ ∧
    (∀ code : Int, code ∈ RETRYABLE_ERROR_CODES ↔ 50 ≤ code ∧ code ≤ 70) := by
  have hretry : api_retryable cfg e = false := by
    rcases hcode with h | h
    · simp [api_retryable, h, Json.truthy]
    · simp [api_retryable, h]
  constructor
  · obtain ⟨k, hk⟩ : ∃ k, cfg.max_attempts = k + 1 :=
      ⟨cfg.max_attempts - 1, by omega⟩
    unfold with_retry
    rw [hk]
    simp only [retryAux]
    rw [hop]
    simp [hretry]
  · intro code
    simp only [RETRYABLE_ERROR_CODES, List.mem_cons, List.not_mem_nil, or_false]
    omega

/-- C1 witness: a bare HTTP 503 ApiFailure (status in the retryable HTTP
set, error code None) raised by an invocation-counting operation is
re-raised after a single invocation with no sleep. -/
theorem c1_witness :
    (503 : Int) ∈ RETRYABLE_HTTP_CODES ∧
    w_failure_503.error_code = Json.null ∧
    with_retry { } w_api_503_op 0 = ⟨.error (.api w_failure_503), [], 1⟩ := by
  refine ⟨by decide, rfl, ?_⟩
  exact (c1_api_failure_retried_only_on_error_code { } w_api_503_op 0 1
    w_failure_503 (by decide) rfl (Or.inl rfl)).1

/-- C2: wrapping an operation that raises TransportFailure on every
invocation, the retry policy invokes it exactly max_attempts times (the
state is advanced once per invocation), re-raises the failure of the last
invocation unchanged, and sleeps min(base_delay * exponential_base ^ (n-1),
max_delay) before the n-th retry (n 1-indexed), never after the final
attempt (max_attempts - 1 sleeps in total). -/
theorem c2_transport_failure_exhausts_attempts (cfg : RetryConfig)
    (op : σ → Except PyExc α × σ) (opMsg : σ → String) (opNext : σ → σ)
    (hop : ∀ s, op s = (.error (.transport (opMsg s)), opNext s))
    (hmax : 1 ≤ cfg.max_attempts) (st : σ) :
    with_retry cfg op st =
      ⟨.error (.transport (opMsg (opNext^[cfg.max_attempts - 1] st))),
       (List.range (cfg.max_attempts - 1)).map
         (fun n => min (cfg.base_delay * cfg.exponential_base ^ n) cfg.max_delay),
       opNext^[cfg.max_attempts] st⟩ :=
  with_retry_all_transport cfg op opMsg opNext hop hmax st

/-- C2 witness: with the default configuration (3 attempts, base delay 1,
exponential base 2, cap 30) an always-failing transport operation is
invoked 3 times, sleeps 1s then 2s, and the last failure is re-raised. -/
theorem c2_witness :
    (1 ≤ ({ } : RetryConfig).max_attempts) ∧
    with_retry { } w_boom_op 0 =
      ⟨.error (.transport "boom"), [1, 2], 3⟩ := by
  refine ⟨by decide, ?_⟩
  have h := c2_transport_failure_exhausts_attempts { } w_boom_op
    (fun n => "boom") (fun n => n + 1) (fun s => rfl) (by decide) 0
  refine h.trans ?_
  norm_num [retry_delay]
  decide

/-- C3: every response with status at least 400 is classified as an
ApiFailure with message "HTTP error {status}", the given status code, the
RequestId header as request id (unset when absent) and details carrying the
raw body; the body is never parsed on this path (the result does not depend
on the JSON decoder). -/
theorem c3_http_ge_400_classification
    (loads loads2 : String → Option (List (String × Json)))
    (status_code : Nat) (text : String) (headers : List (String × String))
    (h : 400 ≤ status_code) :
    parse_api_response loads status_code text headers =
      .error (.api { message := .str s!"HTTP error {status_code}",
                     status_code := some status_code,
                     request_id := hget headers "RequestId",
                     details := [("body", .str text)] }) ∧
    parse_api_response loads2 status_code text headers =
      parse_api_response loads status_code text headers := by
  constructor <;> simp [parse_api_response, h]

/-- C3 witness: a 503 response with a RequestId header and a non-JSON body,
classified identically under two different decoders. -/
theorem c3_witness :
    (400 ≤ 503) ∧
    parse_api_response w_loads_result 503 "busy" [("RequestId", "r1")] =
      .error (.api { message := .str "HTTP error 503", status_code := some 503,
                     request_id := some "r1",
                     details := [("body", .str "busy")] }) ∧
    parse_api_response w_loads_none 503 "busy" [("RequestId", "r1")] =
      parse_api_response w_loads_result 503 "busy" [("RequestId", "r1")] := by
  have h := c3_http_ge_400_classification w_loads_result w_loads_none 503
    "busy" [("RequestId", "r1")] (by omega)
  exact ⟨by omega, h.1.trans rfl, h.2⟩

/-- C4: a sub-400 response whose body decodes to a mapping with an error
key (whose value is a mapping) is classified as an ApiFailure with message
error.error_string (generic default when absent), error code
error.error_code (None when absent), the given status, the RequestId header
and the full error mapping as details. -/
theorem c4_error_envelope_classification
    (loads : String → Option (List (String × Json))) (status_code : Nat)
    (text : String) (headers : List (String × String))
    (data err : List (String × Json))
    (hstatus : status_code < 400) (htext : text ≠ "")
    (hloads : loads text = some data)
    (herr : alget data "error" = some (.obj err)) :
    parse_api_response loads status_code text headers =
      .error (.api { message := (alget err "error_string").getD
                                  (.str "Yandex Direct API error"),
                     error_code := (alget err "error_code").getD .null,
                     status_code := some status_code,
                     request_id := hget headers "RequestId",
                     details := err }) := by
  have h400 : ¬ (400 ≤ status_code) := by omega
  simp [parse_api_response, h400, htext, hloads, herr]

/-- C4 witness: a 200 response with body decoding to an error envelope with
error_code 10 and error_string "bad request". -/
theorem c4_witness :
    parse_api_response w_loads_error 200 "x" [("RequestId", "r2")] =
      .error (.api { message := .str "bad request", error_code := .num 10,
                     status_code := some 200, request_id := some "r2",
                     details := [("error_code", .num 10),
                                 ("error_string", .str "bad request")] }) := by
  have h := c4_error_envelope_classification w_loads_error 200 "x"
    [("RequestId", "r2")]
    [("error", .obj [("error_code", .num 10), ("error_string", .str "bad request")])]
    [("error_code", .num 10), ("error_string", .str "bad request")]
    (by omega) (by decide) rfl rfl
  exact h.trans rfl

/-- C5: a sub-400 response with no error key yields the value under the
result key when present and otherwise the whole parsed mapping; an empty
body parses to the empty mapping. -/
theorem c5_success_payload
    (loads : String → Option (List (String × Json))) (status_code : Nat)
    (text : String) (headers : List (String × String))
    (data : List (String × Json))
    (hstatus : status_code < 400)
    (hdata : (if text = "" then some ([] : List (String × Json)) else loads text)
               = some data)
    (herr : alget data "error" = none) :
    parse_api_response loads status_code text headers =
      .ok ((alget data "result").getD (.obj data)) := by
  have h400 : ¬ (400 ≤ status_code) := by omega
  simp [parse_api_response, h400, hdata, herr]

/-- C5 witness: a 200 response with a result envelope returns the result
value, and a 200 response with an empty body returns the empty mapping. -/
theorem c5_witness :
    parse_api_response w_loads_result 200 "y" [] = .ok (.obj [("ok", .bool true)]) ∧
    parse_api_response w_loads_none 200 "" [] = .ok (.obj []) := by
  have h1 := c5_success_payload w_loads_result 200 "y" []
    [("result", .obj [("ok", .bool true)])] (by omega) rfl rfl
  have h2 := c5_success_payload w_loads_none 200 "" [] [] (by omega) rfl rfl
  exact ⟨h1.trans rfl, h2.trans rfl⟩

/-- C6: get_report classifies a 201 response as an ApiFailure with
status_code 201, message "Report is being generated" and details holding
the retryIn header value; any other status at least 400 raises an
ApiFailure; any remaining status returns the raw body text verbatim (no
JSON parsing is involved anywhere in get_report). -/
theorem c6_get_report_status_classification (status_code : Nat)
    (text : String) (headers : List (String × String)) :
    (status_code = 201 →
      get_report (.ok ⟨status_code, text, headers⟩) =
        .error (.api { message := .str "Report is being generated",
                       status_code := some 201,
                       request_id := hget headers "RequestId",
                       details := [("retry_in",
                                    jsonOfOptStr (hget headers "retryIn"))] })) ∧
    (400 ≤ status_code →
      get_report (.ok ⟨status_code, text, headers⟩) =
        .error (.api { message := .str s!"Report request failed with status {status_code}",
                       status_code := some status_code,
                       request_id := hget headers "RequestId",
                       details := [("body", .str text)] })) ∧
    (status_code ≠ 201 → status_code < 400 →
      get_report (.ok ⟨status_code, text, headers⟩) = .ok text) := by
  refine ⟨?_, ?_, ?_⟩
  · intro h; simp [get_report, h]
  · intro h
    have h201 : ¬ (status_code = 201) := by omega
    simp [get_report, h201, h]
  · intro h1 h2
    have h400 : ¬ (400 ≤ status_code) := by omega
    simp [get_report, h1, h400]

/-- C6 witness: a 201 response with RequestId and retryIn headers, a 500
response, and a 200 response with a TSV body. -/
theorem c6_witness :
    get_report (.ok w_resp201) =
      .error (.api { message := .str "Report is being generated",
                     status_code := some 201, request_id := some "r1",
                     details := [("retry_in", .str "1")] }) ∧
    get_report (.ok ⟨500, "oops", []⟩) =
      .error (.api { message := .str "Report request failed with status 500",
                     status_code := some 500, request_id := none,
                     details := [("body", .str "oops")] }) ∧
    get_report (.ok ⟨200, "tsv-body", []⟩) = .ok "tsv-body" := by
  have h1 := c6_get_report_status_classification 201 ""
    [("RequestId", "r1"), ("retryIn", "1")]
  have h2 := c6_get_report_status_classification 500 "oops" []
  have h3 := c6_get_report_status_classification 200 "tsv-body" []
  exact ⟨(h1.1 rfl).trans rfl, (h2.2.1 (by omega)).trans rfl,
         h3.2.2 (by omega) (by omega)⟩

/-- C8: the fixed service registry has exactly 26 entries; attribute
resolution on the client returns a service proxy bound to the lowercased
name when that name is in the registry and raises AttributeError otherwise;
the resolution is a pure function of the name, involving no transport. -/
theorem c8_service_attribute_resolution (c : YandexDirectClient)
    (name : String) :
    V5_SERVICES.length = 26 ∧
    (str_lower name ∈ V5_SERVICES →
      c.getattrService name = .ok ⟨c, str_lower name⟩) ∧
    (str_lower name ∉ V5_SERVICES → c.getattrService name = .error name) := by
  refine ⟨rfl, ?_, ?_⟩
  · intro h; simp [YandexDirectClient.getattrService, h]
  · intro h; simp [YandexDirectClient.getattrService, h]

/-- C8 witness: "Campaigns" resolves to the campaigns proxy, while
"unknown_service" is rejected. -/
theorem c8_witness :
    (str_lower "Campaigns" ∈ V5_SERVICES) ∧
    w_client.getattrService "Campaigns" = .ok ⟨w_client, "campaigns"⟩ ∧
    (str_lower "unknown_service" ∉ V5_SERVICES) ∧
    w_client.getattrService "unknown_service" = .error "unknown_service" := by
  have h1 := c8_service_attribute_resolution w_client "Campaigns"
  have h2 := c8_service_attribute_resolution w_client "unknown_service"
  refine ⟨by decide, (h1.2.1 (by decide)).trans rfl, by decide,
          h2.2.2 (by decide)⟩

/-- C9: the retry policy is applied both to ServiceProxy.call and to
YandexDirectClient.call with three attempts each, so a proxy method call
against a transport that always raises TransportFailure invokes the
transport exactly 9 times (3 x 3) and surfaces the failure of the 9th
invocation. -/
theorem c9_nested_retry_nine_transport_invocations (msgs : Nat → String)
    (c : YandexDirectClient) (loads : String → Option (List (String × Json)))
    (service method : String) (params : Option (List (String × Json))) :
    (ServiceProxy.call ⟨c, service⟩ loads (counting_transport msgs) method
        params 0).finalState = 9 ∧
    (ServiceProxy.call ⟨c, service⟩ loads (counting_transport msgs) method
        params 0).outcome = .error (.transport (msgs 8)) := by
  have hcall : ∀ s : Nat,
      YandexDirectClient.call c loads (counting_transport msgs) service
          method params s =
        ⟨.error (.transport (msgs (s + 2))),
         [retry_delay fixed_retry_config 0, retry_delay fixed_retry_config 1],
         s + 3⟩ := by
    intro s
    unfold YandexDirectClient.call
    exact (with_retry_all_transport fixed_retry_config _ msgs (fun n => n + 1)
      (fun n => rfl) (by decide) s).trans rfl
  have houter := with_retry_all_transport fixed_retry_config
    (fun s : Nat =>
      ((YandexDirectClient.call c loads (counting_transport msgs) service
          method params s).outcome,
       (YandexDirectClient.call c loads (counting_transport msgs) service
          method params s).finalState))
    (fun s => msgs (s + 2)) (fun s => s + 3)
    (fun s => by
      show ((YandexDirectClient.call c loads (counting_transport msgs) service
               method params s).outcome,
            (YandexDirectClient.call c loads (counting_transport msgs) service
               method params s).finalState) =
           (.error (.transport (msgs (s + 2))), s + 3)
      rw [hcall s]) (by decide) 0
  have hmain : ServiceProxy.call ⟨c, service⟩ loads (counting_transport msgs)
      method params 0 =
      ⟨.error (.transport (msgs 8)),
       [retry_delay fixed_retry_config 0, retry_delay fixed_retry_config 1],
       9⟩ := houter.trans rfl
  exact ⟨by rw [hmain], by rw [hmain]⟩

/-- C10: the retry configuration fields of the client dataclass are dead:
two clients equal in every non-retry field produce identical dispatch
behaviour (call, proxy call, report polling) for every transport, and the
retry policy actually applied is the fixed one (3 attempts, base delay 1,
module-level default code sets). -/
theorem c10_retry_config_fields_unused (c c' : YandexDirectClient)
    (hconfig : c.config = c'.config)
    (htimeout : c.timeout_s = c'.timeout_s)
    (hssl : c.verify_ssl = c'.verify_ssl)
    (hpoll : c.report_poll_interval_s = c'.report_poll_interval_s)
    (hlogreq : c.log_requests = c'.log_requests)
    (hlogresp : c.log_responses = c'.log_responses) :
    (∀ (σ : Type) (loads : String → Option (List (String × Json)))
       (transport : Transport σ) (service method : String)
       (params : Option (List (String × Json))) (st : σ),
       c.call loads transport service method params st =
         c'.call loads transport service method params st ∧
       ServiceProxy.call ⟨c, service⟩ loads transport method params st =
         ServiceProxy.call ⟨c', service⟩ loads transport method params st) ∧
    (∀ (responses : Nat → Except String HttpResponse) (attempts : Nat),
       c.get_report_ready responses attempts =
         c'.get_report_ready responses attempts) ∧
    fixed_retry_config.max_attempts = 3 ∧
    fixed_retry_config.base_delay = 1 ∧
    effective_error_codes fixed_retry_config = RETRYABLE_ERROR_CODES ∧
    effective_http_codes fixed_retry_config = RETRYABLE_HTTP_CODES := by
  have hcall : ∀ (σ : Type) (loads : String → Option (List (String × Json)))
      (transport : Transport σ) (service method : String)
      (params : Option (List (String × Json))) (st : σ),
      c.call loads transport service method params st =
        c'.call loads transport service method params st := by
    intro σ loads transport service method params st
    unfold YandexDirectClient.call
    rw [hconfig]
  refine ⟨fun σ loads transport service method params st =>
            ⟨hcall σ loads transport service method params st, ?_⟩, ?_,
          rfl, rfl, rfl, rfl⟩
  · unfold ServiceProxy.call
    congr 1
    funext s
    show ((c.call loads transport service method params s).outcome,
          (c.call loads transport service method params s).finalState) =
         ((c'.call loads transport service method params s).outcome,
          (c'.call loads transport service method params s).finalState)
    rw [hcall σ loads transport service method params s]
  · intro responses attempts
    unfold YandexDirectClient.get_report_ready
    rw [hpoll]

/-- C10 witness: two clients that differ in every retry configuration field
(and agree elsewhere) dispatch identically against the same transport and
poll reports identically. -/
theorem c10_witness :
    w_client.retry_enabled ≠ w_client_retry_alt.retry_enabled ∧
    w_client.retry_max_attempts ≠ w_client_retry_alt.retry_max_attempts ∧
    w_client.retry_base_delay ≠ w_client_retry_alt.retry_base_delay ∧
    w_client.retry_max_delay ≠ w_client_retry_alt.retry_max_delay ∧
    w_client.retry_on_error_codes ≠ w_client_retry_alt.retry_on_error_codes ∧
    w_client.retry_on_http_codes ≠ w_client_retry_alt.retry_on_http_codes ∧
    w_client.call w_loads_none (counting_transport (fun _ => "boom")) "ads"
        "get" none 0 =
      w_client_retry_alt.call w_loads_none
        (counting_transport (fun _ => "boom")) "ads" "get" none 0 ∧
    w_client.get_report_ready w_responses_201 2 =
      w_client_retry_alt.get_report_ready w_responses_201 2 := by
  have h := c10_retry_config_fields_unused w_client w_client_retry_alt
    rfl rfl rfl rfl rfl rfl
  exact ⟨by decide, by decide, by decide, by decide, by decide, by decide,
         (h.1 Nat w_loads_none (counting_transport (fun _ => "boom")) "ads"
            "get" none 0).1,
         h.2.1 w_responses_201 2⟩

/-- Polling loop bound: the loop performs at most `remaining` further
get_report calls. -/
theorem poll_aux_calls_le (interval : ℚ)
    (responses : Nat → Except String HttpResponse) (attempts : Nat) :
    ∀ (remaining attempt : Nat) (last : Option ApiFailure) (calls : Nat)
      (sleeps : List ℚ),
      (get_report_ready_aux interval responses attempts remaining attempt
          last calls sleeps).calls ≤ calls + remaining := by
  intro remaining
  induction remaining with
  | zero =>
    intro attempt last calls sleeps
    simp [get_report_ready_aux]
  | succ r ih =>
    intro attempt last calls sleeps
    rw [get_report_ready_aux]
    rcases hr : get_report (responses attempt) with ex | s
    · rcases ex with e | m | m
      · show (if e.status_code ≠ some 201 then
                (⟨.error (.api e), calls + 1, sleeps⟩ : PollResult)
              else get_report_ready_aux interval responses attempts r
                     (attempt + 1) (some e) (calls + 1)
                     (sleeps ++ [interval])).calls ≤ calls + (r + 1)
        by_cases hc : e.status_code = some 201
        · rw [if_neg (not_not_intro hc)]
          exact le_trans
            (ih (attempt + 1) (some e) (calls + 1) (sleeps ++ [interval]))
            (by omega)
        · rw [if_pos hc]
          show calls + 1 ≤ calls + (r + 1)
          omega
      · show calls + 1 ≤ calls + (r + 1)
        omega
      · show calls + 1 ≤ calls + (r + 1)
        omega
    · show calls + 1 ≤ calls + (r + 1)
      omega

/-- Polling loop, all-201 case: if every get_report call in the remaining
budget yields a 201 ApiFailure, the loop performs all of them, sleeps the
fixed interval after each, and ends by raising the "not ready" ApiFailure
built from the last 201 failure's details and request id. -/
theorem poll_aux_all_201 (interval : ℚ)
    (responses : Nat → Except String HttpResponse) (attempts : Nat) :
    ∀ (k attempt : Nat) (last : Option ApiFailure) (calls : Nat)
      (sleeps : List ℚ),
      (∀ i, i < k + 1 → ∃ e0, get_report (responses (attempt + i)) =
          .error (.api e0) ∧ e0.status_code = some 201) →
      ∃ e1, get_report (responses (attempt + k)) = .error (.api e1) ∧
        get_report_ready_aux interval responses attempts (k + 1) attempt last
            calls sleeps =
          ⟨.error (.api { message := .str s!"Report was not ready after {attempts} attempts",
                          status_code := some 201, details := e1.details,
                          request_id := e1.request_id }),
           calls + (k + 1), sleeps ++ List.replicate (k + 1) interval⟩ := by
  intro k
  induction k with
  | zero =>
    intro attempt last calls sleeps h
    obtain ⟨e0, he, h201⟩ := h 0 (by omega)
    rw [Nat.add_zero] at he
    refine ⟨e0, by rw [Nat.add_zero]; exact he, ?_⟩
    rw [get_report_ready_aux, he]
    show (if e0.status_code ≠ some 201 then
            (⟨.error (.api e0), calls + 1, sleeps⟩ : PollResult)
          else get_report_ready_aux interval responses attempts 0
                 (attempt + 1) (some e0) (calls + 1)
                 (sleeps ++ [interval])) = _
    rw [if_neg (not_not_intro h201)]
    rw [get_report_ready_aux]
    rfl
  | succ k ih =>
    intro attempt last calls sleeps h
    obtain ⟨e0, he, h201⟩ := h 0 (by omega)
    rw [Nat.add_zero] at he
    have hshift : ∀ i, i < k + 1 → ∃ e2,
        get_report (responses (attempt + 1 + i)) = .error (.api e2) ∧
        e2.status_code = some 201 := by
      intro i hi
      obtain ⟨e2, he2, h2⟩ := h (i + 1) (by omega)
      exact ⟨e2, by rw [show attempt + 1 + i = attempt + (i + 1) by omega]
                    exact he2, h2⟩
    obtain ⟨e1, he1, heq⟩ :=
      ih (attempt + 1) (some e0) (calls + 1) (sleeps ++ [interval]) hshift
    refine ⟨e1, by rw [show attempt + (k + 1) = attempt + 1 + k by omega]
                   exact he1, ?_⟩
    rw [get_report_ready_aux, he]
    show (if e0.status_code ≠ some 201 then
            (⟨.error (.api e0), calls + 1, sleeps⟩ : PollResult)
          else get_report_ready_aux interval responses attempts (k + 1)
                 (attempt + 1) (some e0) (calls + 1)
                 (sleeps ++ [interval])) = _
    rw [if_neg (not_not_intro h201)]
    rw [heq]
    congr 1
    · omega
    · simp [List.replicate_succ]

/-- Polling loop, early-failure case: if the first k get_report calls yield
201 failures and the next one yields a non-201 ApiFailure, that failure is
re-raised immediately after k + 1 calls and k sleeps. -/
theorem poll_aux_early_propagation (interval : ℚ)
    (responses : Nat → Except String HttpResponse) (attempts : Nat) :
    ∀ (k remaining attempt : Nat) (last : Option ApiFailure) (calls : Nat)
      (sleeps : List ℚ) (e : ApiFailure),
      (∀ i, i < k → ∃ e0, get_report (responses (attempt + i)) =
          .error (.api e0) ∧ e0.status_code = some 201) →
      get_report (responses (attempt + k)) = .error (.api e) →
      e.status_code ≠ some 201 →
      k < remaining →
      get_report_ready_aux interval responses attempts remaining attempt last
          calls sleeps =
        ⟨.error (.api e), calls + k + 1, sleeps ++ List.replicate k interval⟩ := by
  intro k
  induction k with
  | zero =>
    intro remaining attempt last calls sleeps e h201 he hne hlt
    obtain ⟨r, hr⟩ : ∃ r, remaining = r + 1 := ⟨remaining - 1, by omega⟩
    subst hr
    rw [Nat.add_zero] at he
    rw [get_report_ready_aux, he]
    show (if e.status_code ≠ some 201 then
            (⟨.error (.api e), calls + 1, sleeps⟩ : PollResult)
          else get_report_ready_aux interval responses attempts r
                 (attempt + 1) (some e) (calls + 1)
                 (sleeps ++ [interval])) = _
    rw [if_pos hne]
    simp
  | succ k ih =>
    intro remaining attempt last calls sleeps e h201 he hne hlt
    obtain ⟨r, hr⟩ : ∃ r, remaining = r + 1 := ⟨remaining - 1, by omega⟩
    subst hr
    obtain ⟨e0, he0, h2010⟩ := h201 0 (by omega)
    rw [Nat.add_zero] at he0
    rw [get_report_ready_aux, he0]
    show (if e0.status_code ≠ some 201 then
            (⟨.error (.api e0), calls + 1, sleeps⟩ : PollResult)
          else get_report_ready_aux interval responses attempts r
                 (attempt + 1) (some e0) (calls + 1)
                 (sleeps ++ [interval])) = _
    rw [if_neg (not_not_intro h2010)]
    rw [ih r (attempt + 1) (some e0) (calls + 1) (sleeps ++ [interval]) e
          (fun i hi => by
            obtain ⟨e2, he2, h2⟩ := h201 (i + 1) (by omega)
            exact ⟨e2, by rw [show attempt + 1 + i = attempt + (i + 1) by omega]
                          exact he2, h2⟩)
          (by rw [show attempt + 1 + k = attempt + (k + 1) by omega]
              exact he)
          hne (by omega)]
    congr 1
    · omega
    · simp [List.replicate_succ]

/-- C7: get_report_ready performs at most `attempts` get_report calls
(default 12); after each 201 outcome it sleeps the fixed
report_poll_interval_s (default 5, not the server's retryIn hint) and
retries; a failure whose status_code is not 201 propagates immediately
after its call, with no further attempts; and when every attempt yields 201
it raises an ApiFailure whose message states the report was not ready after
`attempts` attempts, preserving the request id and details of the last 201
failure. -/
theorem c7_report_poll_loop (c : YandexDirectClient)
    (responses : Nat → Except String HttpResponse) (attempts : Nat) :
    (c.get_report_ready responses attempts).calls ≤ attempts ∧
    c.get_report_ready responses = c.get_report_ready responses 12 ∧
    (∀ cfg : DirectConfig,
      ({ config := cfg } : YandexDirectClient).report_poll_interval_s = 5) ∧
    (∀ (k : Nat) (e : ApiFailure),
      (∀ i, i < k → ∃ e0, get_report (responses i) = .error (.api e0) ∧
          e0.status_code = some 201) →
      get_report (responses k) = .error (.api e) →
      e.status_code ≠ some 201 →
      k < attempts →
      c.get_report_ready responses attempts =
        ⟨.error (.api e), k + 1,
         List.replicate k (c.report_poll_interval_s : ℚ)⟩) ∧
    (1 ≤ attempts →
      (∀ i, i < attempts → ∃ e0, get_report (responses i) = .error (.api e0) ∧
          e0.status_code = some 201) →
      ∃ e1, get_report (responses (attempts - 1)) = .error (.api e1) ∧
        c.get_report_ready responses attempts =
          ⟨.error (.api { message := .str s!"Report was not ready after {attempts} attempts",
                          status_code := some 201, details := e1.details,
                          request_id := e1.request_id }),
           attempts, List.replicate attempts (c.report_poll_interval_s : ℚ)⟩) := by
  refine ⟨?_, rfl, fun cfg => rfl, ?_, ?_⟩
  · have h := poll_aux_calls_le (c.report_poll_interval_s : ℚ) responses
      attempts attempts 0 none 0 []
    simpa [YandexDirectClient.get_report_ready] using h
  · intro k e h201 he hne hk
    have h := poll_aux_early_propagation (c.report_poll_interval_s : ℚ)
      responses attempts k attempts 0 none 0 [] e
      (fun i hi => by simpa using h201 i hi)
      (by simpa using he) hne hk
    refine Eq.trans ?_ (h.trans (by simp))
    rfl
  · intro h1 hall
    obtain ⟨k, hk⟩ : ∃ k, attempts = k + 1 := ⟨attempts - 1, by omega⟩
    subst hk
    obtain ⟨e1, he1, heq⟩ := poll_aux_all_201
      (c.report_poll_interval_s : ℚ) responses (k + 1) k 0 none 0 []
      (fun i hi => by simpa using hall i hi)
    refine ⟨e1, by simpa using he1, ?_⟩
    refine Eq.trans ?_ (heq.trans (by simp))
    rfl

/-- C7 witness: with a 2-attempt budget, a 201-then-500 transport stops
after the second call re-raising the 500 failure with one fixed 5s sleep
between polls, and an always-201 transport exhausts both attempts, sleeps
twice, and raises the "not ready after 2 attempts" failure carrying the
last 201 failure's request id and details. -/
theorem c7_witness :
    (w_client.get_report_ready w_responses_201 2).calls ≤ 2 ∧
    w_client.get_report_ready w_responses_mixed 2 =
      ⟨.error (.api { message := .str "Report request failed with status 500",
                      status_code := some 500, request_id := none,
                      details := [("body", .str "oops")] }),
       2, [5]⟩ ∧
    w_client.get_report_ready w_responses_201 2 =
      ⟨.error (.api { message := .str "Report was not ready after 2 attempts",
                      status_code := some 201, request_id := some "r1",
                      details := [("retry_in", .str "1")] }),
       2, [5, 5]⟩ := by
  have h := c7_report_poll_loop w_client w_responses_201 2
  have h2 := c7_report_poll_loop w_client w_responses_mixed 2
  refine ⟨h.1, ?_, ?_⟩
  · have hearly := h2.2.2.2.1 1
      { message := .str "Report request failed with status 500",
        status_code := some 500, request_id := none,
        details := [("body", .str "oops")] }
      (fun i hi => by
        rw [Nat.lt_one_iff.mp hi]
        exact ⟨{ message := .str "Report is being generated",
                 status_code := some 201, request_id := some "r1",
                 details := [("retry_in", .str "1")] }, rfl, rfl⟩)
      rfl (by decide) (by omega)
    have hi5 : ((w_client.report_poll_interval_s : Nat) : ℚ) = 5 := by
      norm_num [w_client]
    rw [hi5] at hearly
    exact hearly
  · obtain ⟨e1, he1, heq⟩ := h.2.2.2.2 (by omega)
      (fun i hi =>
        ⟨{ message := .str "Report is being generated",
           status_code := some 201, request_id := some "r1",
           details := [("retry_in", .str "1")] }, rfl, rfl⟩)
    have h0 : (Except.error (PyExc.api
        { message := .str "Report is being generated",
          status_code := some 201, request_id := some "r1",
          details := [("retry_in", .str "1")] }) : Except PyExc String) =
        Except.error (PyExc.api e1) := he1
    injection h0 with h1
    injection h1 with h2
    rw [← h2] at heq
    have hi5 : ((w_client.report_poll_interval_s : Nat) : ℚ) = 5 := by
      norm_num [w_client]
    rw [hi5] at heq
    exact heq
